import Mathlib

/-!
Verification of the browser-use automation server
(`src/api/browser-use/server.py` of pmb2/Social-Genius).

The Python module is embedded shallowly:

* machine state that the handlers mutate (the `tasks` dict, the
  `browser_sessions` dict plus the on-disk pickle directory) is passed
  explicitly as values of explicit state types;
* timestamps (`datetime.now().isoformat()`) become `Nat` seconds; the
  Python comparisons on `timedelta`s become the corresponding `Nat`
  comparisons (for a timestamp in the future Python's negative timedelta
  also compares `False` against a positive window, which agrees with
  truncated `Nat` subtraction);
* the browser/agent collaborator is an oracle value: the outcome of
  `agent.run` under `asyncio.wait_for` is an `AgentRun` (final text,
  timeout, or exception), and the browsing context offered to
  `extract_browser_session` carries `Except`-valued results for the
  cookie and storage extraction calls, since each of those `await`s may
  raise;
* Python `dict`s keyed by strings become association lists, and
  `dict.update` on a task record becomes `applyUpdate` over the fields
  the server actually writes.
-/

namespace BrowserUseApi

/-! ### Characters and substring search

Python's `phrase in text` test on lower-cased text is embedded as a
substring search over the character list of the string. -/

/-- `strStarts hay needle` holds when `needle` is an initial segment of
`hay` (the empty needle matches, as in Python). -/
def strStarts : List Char → List Char → Bool
  | _, [] => true
  | [], _ :: _ => false
  | h :: t, n :: ns => h == n && strStarts t ns

/-- `strContainsSub hay needle` is Python's `needle in hay` on strings. -/
def strContainsSub : List Char → List Char → Bool
  | [], needle => strStarts [] needle
  | h :: t, needle => strStarts (h :: t) needle || strContainsSub t needle

/-- Python `text.lower()`. -/
def lowerStr (s : String) : String := String.mk (s.data.map Char.toLower)

/-- Python `any(p in text for p in phrases)` over an already lower-cased
`text`. -/
def anyIndicator (phrases : List String) (textLower : String) : Bool :=
  phrases.any (fun p => strContainsSub textLower.data p.data)

/-! ### The outcome phrase tables (server.py lines 654–717) -/

/-- The fixed success phrase set checked first by the classifier. -/
def success_indicators : List String :=
  [ "successfully logged in",
    "login successful",
    "logged in successfully",
    "reached google account",
    "reached a google account page",
    "reached the google account dashboard",
    "reached the account dashboard" ]

/-- The ordered (code, phrase set) failure table; the Python `dict`
preserves this insertion order and the classifier scans it in order. -/
def failure_indicators : List (String × List String) :=
  [ ("WRONG_PASSWORD",
      [ "password is incorrect",
        "wrong password",
        "password was incorrect",
        "your password was incorrect",
        "check your password" ]),
    ("EMAIL_NOT_FOUND",
      [ "couldn't find your google account",
        "couldn't find account",
        "email not found",
        "no account found" ]),
    ("SUSPICIOUS_ACTIVITY",
      [ "unusual activity",
        "suspicious activity",
        "unusual sign in",
        "suspicious login attempt",
        "security alert",
        "security challenge" ]),
    ("VERIFICATION_REQUIRED",
      [ "verification required",
        "verify it's you",
        "confirm your identity",
        "additional verification",
        "needs additional verification" ]),
    ("TWO_FACTOR_REQUIRED",
      [ "2-step verification",
        "two-factor",
        "2fa",
        "enter verification code",
        "enter the code" ]),
    ("ACCOUNT_DISABLED",
      [ "account disabled",
        "account has been disabled",
        "account suspended" ]),
    ("TOO_MANY_ATTEMPTS",
      [ "too many failed attempts",
        "try again later",
        "temporary lock",
        "account is locked" ]),
    ("CAPTCHA_CHALLENGE",
      [ "captcha",
        "security check",
        "prove you're not a robot",
        "recaptcha" ]) ]

/-- Result of classifying the agent's final text. -/
inductive AuthOutcome where
  | success : AuthOutcome
  | failure (code : String) (identified : Bool) : AuthOutcome
deriving DecidableEq, Repr

/-- The `for err_code, indicators in failure_indicators.items(): ... break`
loop (lines 772–777): first code whose phrase set matches, if any. -/
def findFailureCode : List (String × List String) → String → Option String
  | [], _ => none
  | (code, phrases) :: rest, textLower =>
    if anyIndicator phrases textLower then some code
    else findFailureCode rest textLower

/-- The outcome classification inlined in `perform_google_auth`
(lines 650–777): lower-case the final text, success phrases first,
otherwise the first matching failure code, otherwise the generic
`LOGIN_FAILED` (with `identified_error` left `False`). -/
def classify (text : String) : AuthOutcome :=
  let textLower := lowerStr text
  if anyIndicator success_indicators textLower then .success
  else
    match findFailureCode failure_indicators textLower with
    | some code => .failure code true
    | none => .failure "LOGIN_FAILED" false

/-! ### Task records and the task map (server.py lines 89–154, 752–863) -/

/-- The task `status` strings. -/
inductive TaskStatus where
  | pending : TaskStatus
  | completed : TaskStatus
  | failed : TaskStatus
deriving DecidableEq, Repr

/-- `status in ["completed", "failed"]`. -/
def isTerminal : TaskStatus → Bool
  | .pending => false
  | .completed => true
  | .failed => true

/-- The `result` dict written on a terminal transition.  Each branch of
the server writes only some of these keys; absent keys are `none`. -/
structure AuthResult where
  success : Bool
  error : Option String := none
  error_code : Option String := none
  message : Option String := none
  screenshot : Option String := none
  screenshots_dir : Option String := none
  session_saved : Option Bool := none
  cookies_count : Option Nat := none
  details : Option String := none
deriving DecidableEq, Repr

/-- One entry of the module-global `tasks` dict. -/
structure Task where
  status : TaskStatus
  created_at : Nat
  completed_at : Option Nat
  result : Option AuthResult
  message : Option String
deriving DecidableEq, Repr

/-- `create_task` (lines 131–140): the freshly stored record. -/
def create_task (now : Nat) : Task :=
  { status := .pending
    created_at := now
    completed_at := none
    result := none
    message := none }

/-- The argument of each `tasks[task_id].update({...})` call: status,
completion time, result, and (in some branches) a message. -/
structure TaskUpdate where
  status : TaskStatus
  completed_at : Nat
  result : AuthResult
  message : Option String := none
deriving DecidableEq, Repr

/-- Python `dict.update`: the listed keys are overwritten, keys the
update does not carry (`created_at`, and `message` when the branch's
dict has no message) keep their stored values. -/
def applyUpdate (t : Task) (u : TaskUpdate) : Task :=
  { t with
    status := u.status
    completed_at := some u.completed_at
    result := some u.result
    message := match u.message with
      | some m => some m
      | none => t.message }

/-- `task_cleanup_time = timedelta(hours=1)`, in seconds. -/
def task_cleanup_time : Nat := 3600

/-- The deletion test of `cleanup_old_tasks` (lines 147–151): status is
terminal, `completed_at` is set, and `now - completed_at` strictly
exceeds the retention window. -/
def shouldDelete (now : Nat) (t : Task) : Bool :=
  isTerminal t.status &&
    (match t.completed_at with
     | some c => decide (c + task_cleanup_time < now)
     | none => false)

/-- `cleanup_old_tasks` (lines 142–154) over the task map as an
association list: collect the ids to delete, then delete them. -/
def cleanup_old_tasks (now : Nat) (ts : List (String × Task)) :
    List (String × Task) :=
  ts.filter (fun p => !shouldDelete now p.2)

/-- `terminate_task` (lines 844–863) acting on the stored record for an
id that is present: a pending task is flipped to the terminated terminal
record, any other task is returned unchanged. -/
def terminate_task (t : Task) (now : Nat) : Task :=
  if t.status = .pending then
    applyUpdate t
      { status := .failed
        completed_at := now
        message := some "Task terminated by user"
        result :=
          { success := false
            error := some "Task terminated by user"
            error_code := some "TERMINATED" } }
  else t

/-! ### Session records and the two-tier session store
(server.py lines 93–96, 157–283, 920–961) -/

/-- One cookie descriptor as handed over by the browsing context. -/
structure Cookie where
  name : String
  value : String
  domain : String
deriving DecidableEq, Repr

/-- The `session_data` dict stored per business id.  `last_updated` is
`none` only for the fallback record returned by a failed extraction,
which carries no `last_updated` key.  `user_agent` models the
`browser.config.user_agent` probe, an environment value. -/
structure SessionData where
  cookies : List Cookie
  local_storage : List (String × String)
  session_storage : List (String × String)
  last_updated : Option Nat
  user_agent : Option String := none
  metadata : List (String × String) := []
deriving DecidableEq, Repr

/-- Lookup in a string-keyed dict embedded as an association list. -/
def lookupAssoc : List (String × SessionData) → String → Option SessionData
  | [], _ => none
  | (k, v) :: t, key => if k = key then some v else lookupAssoc t key

/-- `d[key] = v` on a dict embedded as an association list. -/
def insertAssoc :
    List (String × SessionData) → String → SessionData →
      List (String × SessionData)
  | [], key, v => [(key, v)]
  | (k, w) :: t, key, v =>
    if k = key then (key, v) :: t else (k, w) :: insertAssoc t key v

/-- The two tiers of the session store: the module-global
`browser_sessions` dict and the pickles under `session_dir`. -/
structure StoreState where
  memory : List (String × SessionData)
  disk : List (String × SessionData)
deriving DecidableEq, Repr

/-- `save_browser_session` (lines 157–186).  The record is written to
the in-memory dict first and then pickled; `diskOk` is the oracle for
whether the pickle write raises.  When it raises, the `except` branch
returns `False` — with the in-memory write already done. -/
def save_browser_session (st : StoreState) (business_id : String)
    (cookies : List Cookie)
    (local_storage session_storage metadata : List (String × String))
    (now : Nat) (diskOk : Bool) : Bool × StoreState :=
  let data : SessionData :=
    { cookies := cookies
      local_storage := local_storage
      session_storage := session_storage
      last_updated := some now
      user_agent := none
      metadata := metadata }
  let mem := insertAssoc st.memory business_id data
  if diskOk then
    (true, { memory := mem, disk := insertAssoc st.disk business_id data })
  else
    (false, { memory := mem, disk := st.disk })

/-- `load_browser_session` (lines 188–213): the in-memory tier is
consulted first; on a miss the pickle is read and the in-memory tier
repopulated. -/
def load_browser_session (st : StoreState) (business_id : String) :
    Option SessionData × StoreState :=
  match lookupAssoc st.memory business_id with
  | some d => (some d, st)
  | none =>
    match lookupAssoc st.disk business_id with
    | none => (none, st)
    | some d =>
      (some d, { memory := insertAssoc st.memory business_id d, disk := st.disk })

/-- The browsing context offered to `extract_browser_session`: each of
the three extraction calls is an `await` that may raise. -/
structure BrowsingContext where
  cookiesResult : Except String (List Cookie)
  localStorageResult : Except String (List (String × String))
  sessionStorageResult : Except String (List (String × String))
deriving Repr

/-- `extract_browser_session` (lines 252–283).  The two storage reads sit
in their own `try`/`except` blocks and degrade to `{}`; the cookie read
is guarded only by the outer `try`, whose `except` returns the fallback
record `{cookies: [], local_storage: {}, session_storage: {}}` (no
`last_updated` key) instead of re-raising. -/
def extract_browser_session (ctx : BrowsingContext) (now : Nat) : SessionData :=
  match ctx.cookiesResult with
  | .error _ =>
    { cookies := []
      local_storage := []
      session_storage := []
      last_updated := none }
  | .ok cookies =>
    { cookies := cookies
      local_storage :=
        match ctx.localStorageResult with
        | .ok v => v
        | .error _ => []
      session_storage :=
        match ctx.sessionStorageResult with
        | .ok v => v
        | .error _ => []
      last_updated := some now }

/-- `timedelta(days=7)` in seconds. -/
def seven_days : Nat := 7 * 24 * 60 * 60

/-- The body of the `/v1/session/{business_id}` handler (lines 920–961)
reduced to its response fields.  `last_updated = none` models a record
without the key (the handler's `"unknown"` default), which leaves
`is_expired` at its initial `False`. -/
structure SessionCheckResponse where
  has_session : Bool
  cookies_count : Option Nat
  last_updated : Option Nat
  is_expired : Option Bool
deriving DecidableEq, Repr

/-- `check_session` (lines 920–961): load the record through the store
(which may repopulate the in-memory tier), then report the cookie count
and the strict 7-day staleness test. -/
def check_session (st : StoreState) (business_id : String) (now : Nat) :
    SessionCheckResponse × StoreState :=
  let p := load_browser_session st business_id
  match p.1 with
  | none =>
    ({ has_session := false
       cookies_count := none
       last_updated := none
       is_expired := none }, p.2)
  | some s =>
    ({ has_session := true
       cookies_count := some s.cookies.length
       last_updated := s.last_updated
       is_expired := some
         (match s.last_updated with
          | none => false
          | some lu => decide (now - lu > seven_days)) }, p.2)

/-! ### The executor `perform_google_auth` (server.py lines 337–822)

The agent invocation `asyncio.wait_for(agent.run(), timeout=...)` is an
oracle: it either returns a final text, hits the deadline, or raises.
Everything the executor then does deterministically — classification,
session extraction and save, and the single terminal
`tasks[task_id].update` — is embedded below.  The screenshot and
HTML-capture steps between the agent's return and classification are
modelled as non-failing; a failure there falls under the
unexpected-exception outcome. -/

/-- Outcome of the deadline-bounded agent invocation. -/
inductive AgentRun where
  | returns (finalText : String) : AgentRun
  | timeout : AgentRun
  | raises (msg : String) : AgentRun
deriving DecidableEq, Repr

/-- `'_'` to `' '` then Python `str.title()`: the first cased character
of each run of letters is upper-cased, the rest lower-cased. -/
def titleCaseGo : Bool → List Char → List Char
  | _, [] => []
  | prevAlpha, c :: t =>
    (if c.isAlpha then (if prevAlpha then c.toLower else c.toUpper) else c)
      :: titleCaseGo c.isAlpha t

/-- `err_code.replace('_', ' ').title()` (line 775). -/
def titleCode (code : String) : String :=
  String.mk (titleCaseGo false
    (code.data.map (fun c => if c = '_' then ' ' else c)))

/-- The classified-failure message (lines 768–775). -/
def failureMessage (code : String) (identified : Bool) : String :=
  if identified then "Authentication failed: " ++ titleCode code
  else "Failed to log in to Google"

/-- The classified-failure terminal write (lines 780–792):
`status=completed`, `success=False`, the identified (or generic) error
code, and a 500-character prefix of the agent text as `details`. -/
def failureUpdate (now : Nat) (code : String) (identified : Bool)
    (finalText : String) (screenshots_dir : String) : TaskUpdate :=
  { status := .completed
    completed_at := now
    result :=
      { success := false
        error := some (failureMessage code identified)
        error_code := some code
        message := some (failureMessage code identified)
        screenshot := some (screenshots_dir ++ "/final_state.png")
        screenshots_dir := some screenshots_dir
        details := some (finalText.take 500) } }

/-- The deadline-elapsed terminal write (lines 795–806). -/
def timeoutUpdate (now : Nat) : TaskUpdate :=
  { status := .failed
    completed_at := now
    message := some "Authentication task timed out"
    result :=
      { success := false
        error := some "Authentication task timed out"
        error_code := some "TIMEOUT" } }

/-- The unexpected-exception terminal write (lines 809–821). -/
def authErrorUpdate (now : Nat) (errMsg : String) : TaskUpdate :=
  { status := .failed
    completed_at := now
    message := some ("Error during authentication: " ++ errMsg)
    result :=
      { success := false
        error := some ("Authentication task failed: " ++ errMsg)
        error_code := some "AUTH_ERROR" } }

/-- What the classified-success branch produced: the terminal write, the
session store after the optional save, and the local `session_saved`
variable (`none` when no save was attempted). -/
structure SuccessBranchOut where
  update : TaskUpdate
  store : StoreState
  session_saved_flag : Option Bool
deriving DecidableEq, Repr

/-- The classified-success branch (lines 720–764): extract the session,
save it only when `persist_session` is set and the extraction produced
cookies, then write the terminal record — whose `session_saved` key is
the literal `True` and whose `cookies_count` is the extracted count. -/
def successBranch (now : Nat) (persist_session : Bool)
    (extracted : SessionData) (st : StoreState) (diskOk : Bool)
    (business_id screenshots_dir : String) : SuccessBranchOut :=
  let attempted := persist_session && !extracted.cookies.isEmpty
  let saveRes :=
    if attempted then
      some (save_browser_session st business_id extracted.cookies
        extracted.local_storage extracted.session_storage [] now diskOk)
    else none
  { update :=
      { status := .completed
        completed_at := now
        result :=
          { success := true
            message := some "Successfully authenticated with Google"
            screenshot := some (screenshots_dir ++ "/final_state.png")
            screenshots_dir := some screenshots_dir
            session_saved := some true
            cookies_count := some extracted.cookies.length } }
    store :=
      match saveRes with
      | some r => r.2
      | none => st
    session_saved_flag :=
      match saveRes with
      | some r => some r.1
      | none => none }

/-- `perform_google_auth` reduced to its terminal write and its effect on
the session store, as a function of the agent-run oracle. -/
def perform_google_auth (outcome : AgentRun) (now : Nat)
    (persist_session : Bool) (ctx : BrowsingContext) (st : StoreState)
    (diskOk : Bool) (business_id screenshots_dir : String) :
    TaskUpdate × StoreState :=
  match outcome with
  | .timeout => (timeoutUpdate now, st)
  | .raises msg => (authErrorUpdate now msg, st)
  | .returns text =>
    match classify text with
    | .success =>
      let out := successBranch now persist_session
        (extract_browser_session ctx now) st diskOk business_id
        screenshots_dir
      (out.update, out.store)
    | .failure code identified =>
      (failureUpdate now code identified text screenshots_dir, st)

/-! ### Helper lemmas -/

/-- The failure-table scan is first-match-wins: if the entry at index `i`
matches and no earlier entry does, the scan returns that entry's code. -/
theorem findFailureCode_first (l : List (String × List String))
    (textLower : String) :
    ∀ (i : Nat) (hi : i < l.length),
      anyIndicator (l.get ⟨i, hi⟩).2 textLower = true →
      (∀ j (hj : j < i),
        anyIndicator (l.get ⟨j, Nat.lt_trans hj hi⟩).2 textLower = false) →
      findFailureCode l textLower = some (l.get ⟨i, hi⟩).1 := by
  induction l with
  | nil =>
    intro i hi
    exact absurd hi (Nat.not_lt_zero i)
  | cons hd tl ih =>
    intro i hi hmatch hfirst
    obtain ⟨code, phrases⟩ := hd
    cases i with
    | zero =>
      simp only [List.get] at hmatch ⊢
      simp [findFailureCode, hmatch]
    | succ n =>
      have h0 : anyIndicator phrases textLower = false := by
        have := hfirst 0 (Nat.succ_pos n)
        simpa using this
      simp only [List.get] at hmatch ⊢
      simp only [findFailureCode, h0, Bool.false_eq_true, if_false]
      exact ih n (Nat.lt_of_succ_lt_succ hi) hmatch
        (fun j hj => hfirst (j + 1) (Nat.succ_lt_succ hj))

/-! ### Claim theorems -/

/-- C3: the outcome classifier is deterministic and first-match-wins
over the fixed ordered failure table: when the lower-cased text matches
no success phrase, matches the phrase set at position `i` of
`failure_indicators`, and matches no phrase set at an earlier position,
the classification is that position's code (with the error identified). -/
theorem classify_first_match_wins (text : String) (i : Nat)
    (hi : i < failure_indicators.length)
    (hnosucc : anyIndicator success_indicators (lowerStr text) = false)
    (hmatch :
      anyIndicator (failure_indicators.get ⟨i, hi⟩).2 (lowerStr text) = true)
    (hfirst : ∀ j (hj : j < i),
      anyIndicator (failure_indicators.get ⟨j, Nat.lt_trans hj hi⟩).2
        (lowerStr text) = false) :
    classify text = .failure (failure_indicators.get ⟨i, hi⟩).1 true := by
  unfold classify
  simp only [hnosucc, Bool.false_eq_true, if_false]
  rw [findFailureCode_first failure_indicators (lowerStr text) i hi hmatch hfirst]

/-- C3 witness: a text containing both a `CAPTCHA_CHALLENGE` phrase
("captcha", table position 7) and a `WRONG_PASSWORD` phrase
("wrong password", table position 0) classifies as the earlier
`WRONG_PASSWORD`. -/
theorem classify_first_match_wins_witness :
    classify "The page showed a captcha and said the wrong password was entered"
      = .failure "WRONG_PASSWORD" true :=
  classify_first_match_wins
    "The page showed a captcha and said the wrong password was entered"
    0 (by decide) (by decide) (by decide)
    (fun j hj => absurd hj (Nat.not_lt_zero j))

/-- C4: success phrases take absolute precedence: any text whose
lower-cased form contains a phrase of the fixed success set classifies
as success, whatever else the text contains. -/
theorem classify_success_precedence (text : String)
    (h : ∃ p ∈ success_indicators,
      strContainsSub (lowerStr text).data p.data = true) :
    classify text = .success := by
  unfold classify
  have hany : anyIndicator success_indicators (lowerStr text) = true := by
    unfold anyIndicator
    exact List.any_eq_true.mpr h
  simp [hany]

/-- C4 witness: a text containing the success phrase
"successfully logged in" and also the substring "error" classifies as
success. -/
theorem classify_success_precedence_witness :
    classify "Successfully logged in, although an error banner was shown"
      = .success :=
  classify_success_precedence
    "Successfully logged in, although an error banner was shown" (by decide)

/-- C1 (amended): a terminate call on an already-terminal task leaves
the stored record unchanged; but the executor's terminal write is
applied unconditionally, so a late `tasks[task_id].update` lands on a
terminal record all the same, overwriting its status, completion time
and result. -/
theorem terminate_noop_but_executor_write_unconditional (t : Task)
    (now : Nat) (u : TaskUpdate) (h : isTerminal t.status = true) :
    terminate_task t now = t
  ∧ (applyUpdate t u).status = u.status
  ∧ (applyUpdate t u).completed_at = some u.completed_at
  ∧ (applyUpdate t u).result = some u.result := by
  refine ⟨?_, rfl, rfl, rfl⟩
  unfold terminate_task
  cases hs : t.status with
  | pending => rw [hs] at h; simp [isTerminal] at h
  | completed => simp [hs]
  | failed => simp [hs]

/-- C1 amended-claim witness: terminating a task that was already
terminated leaves its record unchanged. -/
theorem terminate_noop_witness :
    terminate_task (terminate_task (create_task 0) 5) 9
      = terminate_task (create_task 0) 5 :=
  (terminate_noop_but_executor_write_unconditional
    (terminate_task (create_task 0) 5) 9 (timeoutUpdate 9) (by decide)).1

/-- C1 counterexample: a task terminated while pending is terminal, yet
the executor's late terminal write (the agent run finishing afterwards
with a classified success) mutates the stored record — the late write is
neither rejected nor a no-op. -/
theorem late_executor_write_mutates_terminal_record :
    isTerminal (terminate_task (create_task 0) 5).status = true ∧
    applyUpdate (terminate_task (create_task 0) 5)
        ((perform_google_auth (.returns "Successfully logged in") 9 true
          ⟨.ok [], .ok [], .ok []⟩ ⟨[], []⟩ true "biz" "dir").1)
      ≠ terminate_task (create_task 0) 5 := by
  decide

/-- C2: the executor's single terminal write has `status=completed`
whenever the agent call returns a final text (whatever its
classification, success or any failure code), and `status=failed`
exactly in the two remaining cases — the deadline elapsing (error code
`TIMEOUT`) and an unexpected exception (error code `AUTH_ERROR`) — each
case producing exactly one terminal write with `completed_at` set. -/
theorem terminal_status_partition (now : Nat) (persist : Bool)
    (ctx : BrowsingContext) (st : StoreState) (diskOk : Bool)
    (biz dir : String) :
    (∀ text,
      ((perform_google_auth (.returns text) now persist ctx st diskOk
          biz dir).1).status = .completed
      ∧ ((perform_google_auth (.returns text) now persist ctx st diskOk
          biz dir).1).completed_at = now)
  ∧ (((perform_google_auth .timeout now persist ctx st diskOk
        biz dir).1).status = .failed
     ∧ ((perform_google_auth .timeout now persist ctx st diskOk
        biz dir).1).result.error_code = some "TIMEOUT"
     ∧ ((perform_google_auth .timeout now persist ctx st diskOk
        biz dir).1).completed_at = now)
  ∧ (∀ msg,
      ((perform_google_auth (.raises msg) now persist ctx st diskOk
          biz dir).1).status = .failed
      ∧ ((perform_google_auth (.raises msg) now persist ctx st diskOk
          biz dir).1).result.error_code = some "AUTH_ERROR"
      ∧ ((perform_google_auth (.raises msg) now persist ctx st diskOk
          biz dir).1).completed_at = now) := by
  refine ⟨fun text => ?_, ⟨rfl, rfl, rfl⟩, fun msg => ⟨rfl, rfl, rfl⟩⟩
  cases hc : classify text with
  | success => simp [perform_google_auth, hc, successBranch]
  | failure code identified => simp [perform_google_auth, hc, failureUpdate]

/-- The deletion test of the sweep, spelled out as a proposition. -/
theorem shouldDelete_iff (now : Nat) (t : Task) :
    shouldDelete now t = true ↔
      (isTerminal t.status = true ∧
        ∃ c, t.completed_at = some c ∧ c + task_cleanup_time < now) := by
  unfold shouldDelete
  cases h : t.completed_at <;> simp [h]

/-- C6: the sweep removes exactly the tasks whose status is terminal and
whose completion time is strictly older than the 1-hour retention
window, and keeps every other entry (pending tasks, and terminal tasks
completed within the window) unchanged in the map. -/
theorem sweep_removes_exactly_expired (now : Nat)
    (ts : List (String × Task)) (id : String) (t : Task) :
    (id, t) ∈ cleanup_old_tasks now ts ↔
      ((id, t) ∈ ts ∧
        ¬(isTerminal t.status = true ∧
          ∃ c, t.completed_at = some c ∧ c + task_cleanup_time < now)) := by
  rw [cleanup_old_tasks, List.mem_filter]
  constructor
  · rintro ⟨hm, hb⟩
    refine ⟨hm, fun hc => ?_⟩
    rw [← shouldDelete_iff] at hc
    rw [hc] at hb
    simp at hb
  · rintro ⟨hm, hnot⟩
    refine ⟨hm, ?_⟩
    cases hb : shouldDelete now t with
    | false => rfl
    | true => exact absurd ((shouldDelete_iff now t).mp hb) hnot

/-- C5 counterexample: when the cookie extraction call raises, `extract`
does not propagate an error — it returns the fallback record, whose
cookie list is empty (the very shape the claim rules out). -/
theorem cookie_failure_returns_empty_record :
    extract_browser_session
        ⟨.error "cookie extraction raised", .ok [("k", "v")], .ok []⟩ 100
      = { cookies := []
          local_storage := []
          session_storage := []
          last_updated := none } := by
  rfl

/-- C5 (amended): every extraction failure is degraded, none propagates:
a storage failure degrades to an empty map in an otherwise-normal
record, while a cookie failure is caught by the outer handler and yields
the fallback record with an empty cookie list, empty storages and no
timestamp. -/
theorem extraction_failures_degrade (ctx : BrowsingContext) (now : Nat) :
    (∀ e, ctx.cookiesResult = .error e →
      extract_browser_session ctx now =
        { cookies := []
          local_storage := []
          session_storage := []
          last_updated := none })
  ∧ (∀ cs e, ctx.cookiesResult = .ok cs →
      ctx.localStorageResult = .error e →
      (extract_browser_session ctx now).cookies = cs
      ∧ (extract_browser_session ctx now).local_storage = [])
  ∧ (∀ cs e, ctx.cookiesResult = .ok cs →
      ctx.sessionStorageResult = .error e →
      (extract_browser_session ctx now).cookies = cs
      ∧ (extract_browser_session ctx now).session_storage = []) := by
  refine ⟨fun e he => ?_, fun cs e hc hl => ?_, fun cs e hc hs => ?_⟩
  · simp [extract_browser_session, he]
  · simp [extract_browser_session, hc, hl]
  · simp [extract_browser_session, hc, hs]

/-- C5 amended-claim witness: failing cookie extraction yields the
fallback record. -/
theorem extraction_failures_degrade_witness :
    extract_browser_session ⟨.error "boom", .ok [], .error "also"⟩ 7
      = { cookies := []
          local_storage := []
          session_storage := []
          last_updated := none } :=
  (extraction_failures_degrade ⟨.error "boom", .ok [], .error "also"⟩ 7).1
    "boom" rfl

/-- Writing a key into a dict and looking it up returns the value. -/
theorem lookupAssoc_insertAssoc (l : List (String × SessionData))
    (k : String) (v : SessionData) :
    lookupAssoc (insertAssoc l k v) k = some v := by
  induction l with
  | nil => simp [insertAssoc, lookupAssoc]
  | cons hd tl ih =>
    obtain ⟨k1, w⟩ := hd
    by_cases h : k1 = k
    · simp [insertAssoc, lookupAssoc, h]
    · simp [insertAssoc, lookupAssoc, h, ih]

/-- C7: after a save that returns success, load returns a record whose
cookie count equals the number of cookies saved — on the warm path
(record still in the in-memory tier) and on the cold path (in-memory
tier cleared, record read back from disk), and the cold load repopulates
the in-memory tier with the record it returns. -/
theorem save_load_roundtrip (st : StoreState) (key : String)
    (cookies : List Cookie) (ls ss md : List (String × String))
    (now : Nat) :
    (save_browser_session st key cookies ls ss md now true).1 = true
  ∧ (∃ d,
      (load_browser_session
        (save_browser_session st key cookies ls ss md now true).2 key).1
          = some d
      ∧ d.cookies.length = cookies.length)
  ∧ (∃ d,
      (load_browser_session
        ⟨[], (save_browser_session st key cookies ls ss md now true).2.disk⟩
        key).1 = some d
      ∧ d.cookies.length = cookies.length
      ∧ lookupAssoc
          ((load_browser_session
            ⟨[], (save_browser_session st key cookies ls ss md now
              true).2.disk⟩ key).2).memory key = some d) := by
  refine ⟨rfl,
    ⟨⟨cookies, ls, ss, some now, none, md⟩, ?_, rfl⟩,
    ⟨⟨cookies, ls, ss, some now, none, md⟩, ?_, rfl, ?_⟩⟩
  · simp [save_browser_session, load_browser_session, lookupAssoc_insertAssoc]
  · simp [save_browser_session, load_browser_session, lookupAssoc,
      lookupAssoc_insertAssoc]
  · simp [save_browser_session, load_browser_session, lookupAssoc,
      lookupAssoc_insertAssoc]

/-- C10: when the disk write raises, save returns `False` — but the
in-memory tier has already been overwritten, so a load in the same
process returns the new, not-durably-persisted record, while the disk
tier still holds the previous state. -/
theorem save_disk_failure_leaves_memory_dirty (st : StoreState)
    (key : String) (cookies : List Cookie)
    (ls ss md : List (String × String)) (now : Nat) :
    (save_browser_session st key cookies ls ss md now false).1 = false
  ∧ (load_browser_session
      (save_browser_session st key cookies ls ss md now false).2 key).1
        = some ⟨cookies, ls, ss, some now, none, md⟩
  ∧ (save_browser_session st key cookies ls ss md now false).2.disk
      = st.disk := by
  refine ⟨rfl, ?_, rfl⟩
  simp [save_browser_session, load_browser_session, lookupAssoc_insertAssoc]

/-- C8: for a stored record whose `last_updated` parses, the session
check reports `is_expired = true` exactly when the record's age strictly
exceeds seven days. -/
theorem session_expiry_strict_seven_days (st : StoreState) (key : String)
    (now lu : Nat) (s : SessionData)
    (hload : (load_browser_session st key).1 = some s)
    (hlu : s.last_updated = some lu) :
    (seven_days < now - lu →
      ((check_session st key now).1).is_expired = some true)
  ∧ (now - lu ≤ seven_days →
      ((check_session st key now).1).is_expired = some false) := by
  constructor <;> intro h
  · simp [check_session, hload, hlu, h]
  · simp [check_session, hload, hlu, Nat.not_lt.mpr h]

/-- C8 witness: a record aged exactly 7 days + 1 second reports
expired, one aged 6 days 23 hours does not. -/
theorem session_expiry_witness :
    ((check_session ⟨[("biz", ⟨[], [], [], some 0, none, []⟩)], []⟩
        "biz" 604801).1).is_expired = some true
  ∧ ((check_session ⟨[("biz", ⟨[], [], [], some 0, none, []⟩)], []⟩
        "biz" 601200).1).is_expired = some false :=
  ⟨(session_expiry_strict_seven_days
      ⟨[("biz", ⟨[], [], [], some 0, none, []⟩)], []⟩ "biz" 604801 0
      ⟨[], [], [], some 0, none, []⟩ (by decide) rfl).1 (by decide),
   (session_expiry_strict_seven_days
      ⟨[("biz", ⟨[], [], [], some 0, none, []⟩)], []⟩ "biz" 601200 0
      ⟨[], [], [], some 0, none, []⟩ (by decide) rfl).2 (by decide)⟩

/-- C9: the classified-success terminal record carries the literal
`session_saved: true` in every configuration — also when persistence is
disabled, when extraction produced no cookies (so no save is attempted:
the local save flag stays unset), and when the save failed — so the
field does not reflect whether a session was actually persisted. -/
theorem success_result_reports_session_saved_true (now : Nat)
    (persist : Bool) (extracted : SessionData) (st : StoreState)
    (diskOk : Bool) (biz dir : String) :
    ((successBranch now persist extracted st diskOk biz
        dir).update.result).session_saved = some true
  ∧ (persist = false →
      (successBranch now persist extracted st diskOk biz
        dir).session_saved_flag = none)
  ∧ (extracted.cookies = [] →
      (successBranch now persist extracted st diskOk biz
        dir).session_saved_flag = none)
  ∧ (diskOk = false →
      (successBranch now persist extracted st diskOk biz
          dir).session_saved_flag = none
      ∨ (successBranch now persist extracted st diskOk biz
          dir).session_saved_flag = some false) := by
  refine ⟨rfl, fun hp => ?_, fun hc => ?_, fun hd => ?_⟩
  · subst hp; rfl
  · simp [successBranch, hc]
  · subst hd
    cases hA : (persist && !extracted.cookies.isEmpty) with
    | false => left; simp [successBranch, hA]
    | true => right; simp [successBranch, hA, save_browser_session]

/-- C9 witness: with persistence disabled the terminal record still
reports `session_saved = true` while no save was attempted. -/
theorem success_result_session_saved_witness :
    ((successBranch 1 false ⟨[⟨"n", "v", "d"⟩], [], [], some 1, none, []⟩
        ⟨[], []⟩ true "biz" "dir").update.result).session_saved = some true
  ∧ (successBranch 1 false ⟨[⟨"n", "v", "d"⟩], [], [], some 1, none, []⟩
        ⟨[], []⟩ true "biz" "dir").session_saved_flag = none :=
  ⟨(success_result_reports_session_saved_true 1 false
      ⟨[⟨"n", "v", "d"⟩], [], [], some 1, none, []⟩ ⟨[], []⟩ true
      "biz" "dir").1,
   (success_result_reports_session_saved_true 1 false
      ⟨[⟨"n", "v", "d"⟩], [], [], some 1, none, []⟩ ⟨[], []⟩ true
      "biz" "dir").2.1 rfl⟩

end BrowserUseApi
